import Mathlib

/-!
# RenderIFrame: sizing and layout of an inline frame with frame flattening

A shallow embedding of `Source/WebCore/rendering/RenderIFrame.cpp`.

* Pointers of the C++ code are `Option` values.  A member access through an
  absent pointer has no defined result: the functions below return `none` there.
* `int` quantities are `Int` values.  The sums that the file forms are `int`
  sums: `intAdd` wraps them to 32 bits in two's complement, which is what the
  compiled code leaves on overflow.
* `Frame`, `FrameView`, `Document` and `Page` refer to each other in C++.  The
  embedding keeps one structure per role the code reads them in: the owning
  side (`OwnerDocument`, `Frame`, `Page`, `MainFrame`, `MainFrameView`) and the
  embedded side (`FrameView`, `ContentFrame`, `Document`, `HTMLElement`).
* Code of the host engine that the file calls but does not define
  (`RenderPart`, `RenderBox`, `IntRect`) is a parameter (`Host`) or is modelled
  from the specification and marked so.
-/

namespace WebCore

/-- Scrollbar policy of a frame element: the enumeration `ScrollbarMode`. -/
inductive ScrollbarMode where
  | ScrollbarAuto
  | ScrollbarAlwaysOff
  | ScrollbarAlwaysOn
  deriving DecidableEq, Repr

/-- Kind of a style length. Only `Fixed` is an absolute length. -/
inductive LengthType where
  | Auto
  | Relative
  | Percent
  | Fixed
  | Intrinsic
  | MinIntrinsic
  deriving DecidableEq, Repr

/-- Style length: `style()->width()` and `style()->height()`. -/
structure Length where
  value : Int
  type : LengthType
  deriving DecidableEq, Repr

/-- Test `Length::isFixed()`. -/
def Length.isFixed (l : Length) : Bool :=
  l.type == LengthType.Fixed

/-- Part of `RenderStyle` that the file reads. -/
structure RenderStyle where
  width : Length
  height : Length
  deriving DecidableEq, Repr

/-- Tag names of `HTMLNames` that can reach the code. -/
inductive QualifiedName where
  | iframeTag
  | framesetTag
  | bodyTag
  | frameTag
  | objectTag
  | embedTag
  deriving DecidableEq, Repr

/-- Integer rectangle `IntRect`: location and size. -/
structure IntRect where
  x : Int
  y : Int
  width : Int
  height : Int
  deriving DecidableEq, Repr

/-- Right edge `IntRect::maxX()`. -/
def IntRect.maxX (r : IntRect) : Int := r.x + r.width

/-- Bottom edge `IntRect::maxY()`. -/
def IntRect.maxY (r : IntRect) : Int := r.y + r.height

/-- Emptiness `IntRect::isEmpty()`: no positive area. -/
def IntRect.isEmpty (r : IntRect) : Bool :=
  decide (r.width ≤ 0) || decide (r.height ≤ 0)

/-- Modelled from the spec: `IntRect::intersects` is declared in `IntRect.h`, which is
not part of the sources. The specification asks for a geometric intersection test
that is symmetric and exact at boundaries, where rectangles with a zero-area overlap
do not intersect: both rectangles have positive area and overlap strictly on both
axes. -/
def IntRect.intersects (r other : IntRect) : Bool :=
  !r.isEmpty && !other.isEmpty
    && decide (r.x < other.maxX) && decide (other.x < r.maxX)
    && decide (r.y < other.maxY) && decide (other.y < r.maxY)

/-- Element node as seen through `Node::hasTagName`. -/
structure HTMLElement where
  tagName : QualifiedName
  deriving DecidableEq, Repr

/-- Test `Node::hasTagName`. -/
def HTMLElement.hasTagName (n : HTMLElement) (t : QualifiedName) : Bool :=
  n.tagName == t

/-- Embedded document: `body()` is absent when the document has no body element. -/
structure Document where
  body : Option HTMLElement
  deriving DecidableEq, Repr

/-- Frame of the embedded view: `currentView->frame()`. -/
structure ContentFrame where
  document : Document
  deriving DecidableEq, Repr

/-- Embedded view of the box: `widget()` cast to `FrameView`. -/
structure FrameView where
  frame : Option ContentFrame
  contentsWidth : Int
  contentsHeight : Int
  deriving DecidableEq, Repr

/-- View of the main frame of the page. `contentsSize()` is the extent of the whole
laid out document; the scroll offset and the visible size describe the part of it
that is on screen. The code reads `contentsWidth` and `contentsHeight` only. -/
structure MainFrameView where
  scrollX : Int
  scrollY : Int
  visibleWidth : Int
  visibleHeight : Int
  contentsWidth : Int
  contentsHeight : Int
  deriving DecidableEq, Repr

/-- Main frame of a page: `page()->mainFrame()`. -/
structure MainFrame where
  view : Option MainFrameView
  deriving DecidableEq, Repr

/-- Page that a frame is attached to. -/
structure Page where
  mainFrame : Option MainFrame
  deriving DecidableEq, Repr

/-- Settings of a frame. `frameFlatteningEnabled` is the global switch that the
disabled line `frame && frame->settings()->frameFlatteningEnabled()` used to read. -/
structure Settings where
  frameFlatteningEnabled : Bool
  deriving DecidableEq, Repr

/-- Frame of the owning document: `element->document()->frame()`. -/
structure Frame where
  page : Option Page
  settings : Settings
  deriving DecidableEq, Repr

/-- Document that owns the frame element. -/
structure OwnerDocument where
  frame : Option Frame
  deriving DecidableEq, Repr

/-- Node of the renderer, read as an `HTMLIFrameElement` once its tag is checked. -/
structure HTMLIFrameElement where
  tagName : QualifiedName
  scrollingMode : ScrollbarMode
  document : OwnerDocument
  deriving DecidableEq, Repr

/-- Test `Node::hasTagName` on the node of the renderer. -/
def HTMLIFrameElement.hasTagName (n : HTMLIFrameElement) (t : QualifiedName) : Bool :=
  n.tagName == t

/-- State of a `RenderIFrame` that the file reads or writes. `x` and `y` are the
absolute position of the box in document coordinates. -/
structure RenderIFrame where
  node : Option HTMLIFrameElement
  style : RenderStyle
  widget : Option FrameView
  x : Int
  y : Int
  width : Int
  height : Int
  borderTop : Int
  borderBottom : Int
  borderLeft : Int
  borderRight : Int
  m_overflow : Option IntRect
  needsLayout : Bool
  deriving DecidableEq, Repr

/-- Modelled from the spec: `absoluteBoundingBoxRect` is a `RenderObject` method that is
not part of the sources. The specification describes it as the absolute bounding
rectangle of the box: position plus size in document coordinates. -/
def RenderIFrame.absoluteBoundingBoxRect (s : RenderIFrame) : IntRect :=
  { x := s.x, y := s.y, width := s.width, height := s.height }

/-- Rectangle `IntRect(IntPoint(0, 0), view->contentsSize())` built in `flattenFrame`. -/
def MainFrameView.contentsRect (view : MainFrameView) : IntRect :=
  { x := 0, y := 0, width := view.contentsWidth, height := view.contentsHeight }

/-- Decision `RenderIFrame::flattenFrame()`. The result is `none` where the C++ code
calls a member through an absent pointer. -/
def RenderIFrame.flattenFrame (s : RenderIFrame) : Option Bool :=
  match s.node with
  | none => some false
  | some element =>
    if !element.hasTagName QualifiedName.iframeTag then some false
    else
      let isScrollable := element.scrollingMode != ScrollbarMode.ScrollbarAlwaysOff
      if !isScrollable && s.style.width.isFixed && s.style.height.isFixed then some false
      else
        let frame := element.document.frame
        let enabled :=
          match s.widget with
          | none => false
          | some currentView =>
            match currentView.frame with
            | none => false
            | some iframe =>
              match iframe.document.body with
              | none => false
              | some body => body.hasTagName QualifiedName.framesetTag
        if !enabled then some false
        else
          match frame with
          | none => none
          | some frame =>
            match frame.page with
            | none => some false
            | some page =>
              match page.mainFrame with
              | none => none
              | some mainFrame =>
                match mainFrame.view with
                | none => some false
                | some view =>
                  some (s.absoluteBoundingBoxRect.intersects view.contentsRect)

/-- Host engine code that `RenderIFrame.cpp` calls and does not define. Each field is
an arbitrary function of the state of the box.
* `partLogicalWidth`, `partLogicalHeight`: the width and the height that
  `RenderPart::computeLogicalWidth()` and `RenderPart::computeLogicalHeight()`
  assign (the baseline, computed without flattening);
* `partLayout`: `RenderPart::layout()`;
* `layoutWithFlattening`: `RenderFrameBase::layoutWithFlattening(bool, bool)`;
* `addShadowOverflow`, `updateLayerTransform`: the `RenderBox` methods. -/
structure Host where
  partLogicalWidth : RenderIFrame → Int
  partLogicalHeight : RenderIFrame → Int
  partLayout : RenderIFrame → RenderIFrame
  layoutWithFlattening : Bool → Bool → RenderIFrame → RenderIFrame
  addShadowOverflow : RenderIFrame → RenderIFrame
  updateLayerTransform : RenderIFrame → RenderIFrame

/-- Smallest value of a 32-bit `int`. -/
def INT_MIN : Int := -2147483648

/-- Largest value of a 32-bit `int`. -/
def INT_MAX : Int := 2147483647

/-- The value is representable as a 32-bit `int`. -/
def fitsInt (n : Int) : Bool :=
  decide (INT_MIN ≤ n) && decide (n ≤ INT_MAX)

/-- Reduce an integer to the 32-bit two's complement value an `int` holds. -/
def wrapInt (n : Int) : Int :=
  (n + 2147483648) % 4294967296 - 2147483648

/-- Sum of two `int` values as the machine forms it. -/
def intAdd (a b : Int) : Int :=
  wrapInt (a + b)

/-- Baseline `RenderPart::computeLogicalHeight()`: stores the host height. -/
def RenderPart.computeLogicalHeight (host : Host) (s : RenderIFrame) : RenderIFrame :=
  { s with height := host.partLogicalHeight s }

/-- Baseline `RenderPart::computeLogicalWidth()`: stores the host width. -/
def RenderPart.computeLogicalWidth (host : Host) (s : RenderIFrame) : RenderIFrame :=
  { s with width := host.partLogicalWidth s }

/-- Method `RenderIFrame::computeLogicalHeight()`. The result is `none` where the C++
code calls a member through an absent pointer. -/
def RenderIFrame.computeLogicalHeight (host : Host) (s₀ : RenderIFrame) : Option RenderIFrame :=
  let s := RenderPart.computeLogicalHeight host s₀
  match s.flattenFrame with
  | none => none
  | some false => some s
  | some true =>
    match s.node with
    | none => none
    | some frame =>
      let isScrollable := frame.scrollingMode != ScrollbarMode.ScrollbarAlwaysOff
      if isScrollable || !s.style.height.isFixed then
        match s.widget with
        | none => some s
        | some view =>
          let border := intAdd s.borderTop s.borderBottom
          some { s with height := max s.height (intAdd view.contentsHeight border) }
      else some s

/-- Method `RenderIFrame::computeLogicalWidth()`. The result is `none` where the C++
code calls a member through an absent pointer. -/
def RenderIFrame.computeLogicalWidth (host : Host) (s₀ : RenderIFrame) : Option RenderIFrame :=
  let s := RenderPart.computeLogicalWidth host s₀
  match s.flattenFrame with
  | none => none
  | some false => some s
  | some true =>
    match s.node with
    | none => none
    | some frame =>
      let isScrollable := frame.scrollingMode != ScrollbarMode.ScrollbarAlwaysOff
      if isScrollable || !s.style.width.isFixed then
        match s.widget with
        | none => some s
        | some view =>
          let border := intAdd s.borderLeft s.borderRight
          some { s with width := max s.width (intAdd view.contentsWidth border) }
      else some s

/-- Calls that `RenderIFrame::layout()` makes, in program order. -/
inductive HostCall where
  | partComputeLogicalWidth
  | partComputeLogicalHeight
  | layoutWithFlattening (fixedWidth fixedHeight : Bool)
  | partLayout
  | overflowClear
  | addShadowOverflow
  | updateLayerTransform
  | setNeedsLayout (b : Bool)
  deriving DecidableEq, Repr

/-- Method `RenderIFrame::layout()`: the state it leaves and the calls it made. The
debug-only `ASSERT(needsLayout())` compiles to nothing in a release build and is not
checked. The result is `none` where the C++ code calls a member through an absent
pointer. -/
def RenderIFrame.layout (host : Host) (s₀ : RenderIFrame) :
    Option (RenderIFrame × List HostCall) :=
  let s₁ := RenderPart.computeLogicalWidth host s₀
  let s₂ := RenderPart.computeLogicalHeight host s₁
  match s₂.flattenFrame with
  | none => none
  | some true =>
    let fixedWidth := s₂.style.width.isFixed
    let fixedHeight := s₂.style.height.isFixed
    some (host.layoutWithFlattening fixedWidth fixedHeight s₂,
      [HostCall.partComputeLogicalWidth, HostCall.partComputeLogicalHeight,
        HostCall.layoutWithFlattening fixedWidth fixedHeight])
  | some false =>
    let s₃ := host.partLayout s₂
    let s₄ := { s₃ with m_overflow := none }
    let s₅ := host.addShadowOverflow s₄
    let s₆ := host.updateLayerTransform s₅
    some ({ s₆ with needsLayout := false },
      [HostCall.partComputeLogicalWidth, HostCall.partComputeLogicalHeight,
        HostCall.partLayout, HostCall.overflowClear, HostCall.addShadowOverflow,
        HostCall.updateLayerTransform, HostCall.setNeedsLayout false])

/-! ## Vocabulary of the specification -/

/-- Visible viewport rectangle of the host page in the words of the specification:
anchored at the scroll origin of the view, sized to its visible width and height. -/
def MainFrameView.visibleViewportRect (view : MainFrameView) : IntRect :=
  { x := view.scrollX, y := view.scrollY,
    width := view.visibleWidth, height := view.visibleHeight }

/-- Main view of the host page of a box, when every link of the chain
`node -> document -> frame -> page -> mainFrame -> view` is present. -/
def RenderIFrame.hostView (s : RenderIFrame) : Option MainFrameView :=
  s.node.bind fun element =>
    element.document.frame.bind fun frame =>
      frame.page.bind fun page =>
        page.mainFrame.bind fun mainFrame => mainFrame.view

/-- Scrollable element: the scrolling mode is not `ScrollbarAlwaysOff`. -/
def RenderIFrame.isScrollable (s : RenderIFrame) : Bool :=
  match s.node with
  | none => false
  | some element => element.scrollingMode != ScrollbarMode.ScrollbarAlwaysOff

/-- The node of the box is present and is an iframe element. -/
def RenderIFrame.isIFrame (s : RenderIFrame) : Bool :=
  match s.node with
  | none => false
  | some element => element.hasTagName QualifiedName.iframeTag

/-- The box has an embedded view whose frame has a document whose body is a
frameset element. -/
def RenderIFrame.embeddedBodyIsFrameset (s : RenderIFrame) : Bool :=
  match s.widget with
  | none => false
  | some currentView =>
    match currentView.frame with
    | none => false
    | some iframe =>
      match iframe.document.body with
      | none => false
      | some body => body.hasTagName QualifiedName.framesetTag

/-! ## Sample states -/

/-- Host view 800 by 600 that shows the top of a document 800 by 2000. -/
def sampleMainView : MainFrameView :=
  { scrollX := 0, scrollY := 0, visibleWidth := 800, visibleHeight := 600,
    contentsWidth := 800, contentsHeight := 2000 }

/-- Owning document whose frame is attached to a page with the given main view. -/
def ownerWithView (view : MainFrameView) : OwnerDocument :=
  { frame := some { page := some { mainFrame := some { view := some view } },
                    settings := { frameFlatteningEnabled := false } } }

/-- Embedded view 640 by 800 whose document body has the given tag. -/
def embeddedView (tag : QualifiedName) : FrameView :=
  { frame := some { document := { body := some { tagName := tag } } },
    contentsWidth := 640, contentsHeight := 800 }

/-- Iframe 300 by 150 at (10, 20), auto width and height, scrolling `Auto`, no
border, embedding a frameset document, inside a page that shows `sampleMainView`. -/
def sampleBox : RenderIFrame :=
  { node := some { tagName := QualifiedName.iframeTag,
                   scrollingMode := ScrollbarMode.ScrollbarAuto,
                   document := ownerWithView sampleMainView },
    style := { width := { value := 0, type := LengthType.Auto },
               height := { value := 0, type := LengthType.Auto } },
    widget := some (embeddedView QualifiedName.framesetTag),
    x := 10, y := 20, width := 300, height := 150,
    borderTop := 0, borderBottom := 0, borderLeft := 0, borderRight := 0,
    m_overflow := none, needsLayout := true }

/-- Host whose baseline keeps the current width and height of the box (the used
size of a replaced box that is already laid out) and whose layout procedures change
nothing. -/
def sampleHost : Host :=
  { partLogicalWidth := fun s => s.width,
    partLogicalHeight := fun s => s.height,
    partLayout := fun s => s,
    layoutWithFlattening := fun _ _ s => s,
    addShadowOverflow := fun s => s,
    updateLayerTransform := fun s => s }

/-- Host view 800 by 600 whose recorded contents size is only 800 by 400, shorter than
the visible area (`flattenFrame` runs during layout and reads the contents size that
the view holds at that moment). -/
def shortPageView : MainFrameView :=
  { scrollX := 0, scrollY := 0, visibleWidth := 800, visibleHeight := 600,
    contentsWidth := 800, contentsHeight := 400 }

/-- The sample iframe at (10, 450) with height 100 in a page that shows `shortPageView`:
inside the visible area, below the extent of the contents. -/
def belowContentsBox : RenderIFrame :=
  { sampleBox with
    node := some { tagName := QualifiedName.iframeTag,
                   scrollingMode := ScrollbarMode.ScrollbarAuto,
                   document := ownerWithView shortPageView },
    y := 450, height := 100 }

/-- The sample iframe with style 300 by 200 fixed and scrolling `AlwaysOff`; it still
embeds a frameset document and is on screen. -/
def fixedBox : RenderIFrame :=
  { sampleBox with
    node := some { tagName := QualifiedName.iframeTag,
                   scrollingMode := ScrollbarMode.ScrollbarAlwaysOff,
                   document := ownerWithView sampleMainView },
    style := { width := { value := 300, type := LengthType.Fixed },
               height := { value := 200, type := LengthType.Fixed } },
    width := 300, height := 200 }

/-- The sample iframe embedding a document with an ordinary body, in a frame whose
settings switch frame flattening on. -/
def plainBodyBox : RenderIFrame :=
  { sampleBox with
    node := some { tagName := QualifiedName.iframeTag,
                   scrollingMode := ScrollbarMode.ScrollbarAuto,
                   document :=
                    { frame := some { page := some { mainFrame := some { view := some sampleMainView } },
                                      settings := { frameFlatteningEnabled := true } } } },
    widget := some (embeddedView QualifiedName.bodyTag) }

/-- The sample iframe moved to (10, 1500): below the visible part (0, 0, 800, 600) of the
host page, inside its contents (0, 0, 800, 2000). -/
def belowFoldBox : RenderIFrame :=
  { sampleBox with y := 1500 }

/-- The sample iframe moved to (-5000, 20): outside the contents of the host page. -/
def offPageBox : RenderIFrame :=
  { sampleBox with x := -5000 }

/-- The sample iframe whose owning document is not attached to a frame. -/
def detachedOwnerBox : RenderIFrame :=
  { sampleBox with
    node := some { tagName := QualifiedName.iframeTag,
                   scrollingMode := ScrollbarMode.ScrollbarAuto,
                   document := { frame := none } } }

/-- The owning side of a box makes `flattenFrame` call a member through an absent
pointer once flattening is enabled: the owning document has no frame (`frame->page()`),
or its page has no main frame (`mainFrame()->view()`). -/
def RenderIFrame.ownerChainBroken (s : RenderIFrame) : Bool :=
  match s.node with
  | none => false
  | some element =>
    match element.document.frame with
    | none => true
    | some frame =>
      match frame.page with
      | none => false
      | some page => page.mainFrame.isNone

/-- The sample iframe with scrolling `AlwaysOff`, style height 200 fixed and style
width auto; it embeds a frameset document and is on screen. -/
def fixedHeightBox : RenderIFrame :=
  { sampleBox with
    node := some { tagName := QualifiedName.iframeTag,
                   scrollingMode := ScrollbarMode.ScrollbarAlwaysOff,
                   document := ownerWithView sampleMainView },
    style := { width := { value := 0, type := LengthType.Auto },
               height := { value := 200, type := LengthType.Fixed } },
    height := 200 }

/-- A host procedure keeps the size of the box: width and height are the same before
and after it. -/
def Host.keepsSize (f : RenderIFrame → RenderIFrame) : Prop :=
  ∀ t, (f t).width = t.width ∧ (f t).height = t.height

/-! ## Axis swap -/

/-- Embedded view with contents width and contents height exchanged. -/
def FrameView.swapAxes (v : FrameView) : FrameView :=
  { v with contentsWidth := v.contentsHeight, contentsHeight := v.contentsWidth }

/-- Style with width and height exchanged. -/
def RenderStyle.swapAxes (st : RenderStyle) : RenderStyle :=
  { width := st.height, height := st.width }

/-- Box state with the two axes exchanged: width and height, style width and style
height, left and top border, right and bottom border, contents width and contents
height of the embedded view. Position, node and owner side are kept. -/
def RenderIFrame.swapAxes (s : RenderIFrame) : RenderIFrame :=
  { s with
    style := s.style.swapAxes,
    widget := s.widget.map FrameView.swapAxes,
    width := s.height, height := s.width,
    borderTop := s.borderLeft, borderBottom := s.borderRight,
    borderLeft := s.borderTop, borderRight := s.borderBottom }

/-- Host with baseline width and baseline height exchanged: its baseline height of a
state is the baseline width that the original host gives the swapped state, and
conversely. -/
def Host.swapAxes (host : Host) : Host :=
  { host with
    partLogicalWidth := fun s => host.partLogicalHeight s.swapAxes,
    partLogicalHeight := fun s => host.partLogicalWidth s.swapAxes }

/-- Width computation in the words of the specification, symmetric to height: swap the
axes, run `computeLogicalHeight`, swap back. -/
def RenderIFrame.mirroredComputeLogicalHeight (host : Host) (s : RenderIFrame) :
    Option RenderIFrame :=
  (RenderIFrame.computeLogicalHeight host.swapAxes s.swapAxes).map RenderIFrame.swapAxes

/-! ## Edge contact and further sample states -/

/-- Extent of the overlap of two rectangles along the x axis; negative when they are
apart. -/
def IntRect.overlapWidth (r other : IntRect) : Int :=
  min r.maxX other.maxX - max r.x other.x

/-- Extent of the overlap of two rectangles along the y axis; negative when they are
apart. -/
def IntRect.overlapHeight (r other : IntRect) : Int :=
  min r.maxY other.maxY - max r.y other.y

/-- Two rectangles share only an edge, in the words of the specification: they meet,
and their overlap has zero area. -/
def IntRect.sharesOnlyEdge (r other : IntRect) : Bool :=
  decide (0 ≤ r.overlapWidth other) && decide (0 ≤ r.overlapHeight other)
    && (decide (r.overlapWidth other = 0) || decide (r.overlapHeight other = 0))

/-- The sample box with an `object` element as its node; it still embeds a frameset
document, scrolls and is on screen. -/
def objectBox : RenderIFrame :=
  { sampleBox with
    node := some { tagName := QualifiedName.objectTag,
                   scrollingMode := ScrollbarMode.ScrollbarAuto,
                   document := ownerWithView sampleMainView } }

/-- The sample box without a node (an anonymous renderer). -/
def anonymousBox : RenderIFrame :=
  { sampleBox with node := none }

/-- The sample iframe moved to (800, 20): its left edge lies on the right edge of the
contents rectangle (0, 0, 800, 2000) of the host page. -/
def edgeBox : RenderIFrame :=
  { sampleBox with x := 800 }

/-- The sample iframe carrying an overflow rectangle from an earlier layout. -/
def overflowBox : RenderIFrame :=
  { sampleBox with m_overflow := some { x := 0, y := 0, width := 400, height := 400 } }

/-- Embedded frameset view whose contents are as wide and as high as an `int` can
say. -/
def hugeView : FrameView :=
  { frame := some { document := { body := some { tagName := QualifiedName.framesetTag } } },
    contentsWidth := 2147483647, contentsHeight := 2147483647 }

/-- The sample iframe around `hugeView`, with a top border and a left border of 1. -/
def hugeContentsBox : RenderIFrame :=
  { sampleBox with widget := some hugeView, borderTop := 1, borderLeft := 1 }

/-- The box `fixedHeightBox` around `hugeView`, with a left border of 1. -/
def hugeContentsFixedHeightBox : RenderIFrame :=
  { fixedHeightBox with widget := some hugeView, borderLeft := 1 }

/-- Host whose two layout procedures leave the box marked as needing layout, and whose
standard layout also leaves an overflow rectangle behind. -/
def dirtyHost : Host :=
  { sampleHost with
    partLayout := fun s =>
      { s with needsLayout := true,
               m_overflow := some { x := 0, y := 0, width := 1, height := 1 } },
    layoutWithFlattening := fun _ _ s => { s with needsLayout := true } }

/-! ## Sums of `int` values -/

/-- A sum of three `int` values formed in two steps is the exact sum whenever the exact
sum is representable, whatever the intermediate sum does. -/
theorem intAdd_of_fits (a b c : Int) (h : fitsInt (a + b + c) = true) :
    intAdd a (intAdd b c) = a + b + c := by
  unfold fitsInt INT_MIN INT_MAX at h
  simp only [Bool.and_eq_true, decide_eq_true_eq] at h
  unfold intAdd wrapInt
  omega

/-! ## The decision `flattenFrame` -/

/-- Without an embedded frameset body the decision is `false`; the owning frame is
not consulted. -/
theorem flattenFrame_of_not_enabled (s : RenderIFrame)
    (h : s.embeddedBodyIsFrameset = false) : s.flattenFrame = some false := by
  unfold RenderIFrame.flattenFrame
  unfold RenderIFrame.embeddedBodyIsFrameset at h
  cases hn : s.node with
  | none => rfl
  | some element =>
    simp only [h]
    simp

/-- A non-scrollable box with fixed width and height is rejected before anything else
is read. -/
theorem flattenFrame_of_fixed (s : RenderIFrame)
    (hmode : ∀ element, s.node = some element →
      element.scrollingMode = ScrollbarMode.ScrollbarAlwaysOff)
    (hw : s.style.width.isFixed = true) (hh : s.style.height.isFixed = true) :
    s.flattenFrame = some false := by
  unfold RenderIFrame.flattenFrame
  cases hn : s.node with
  | none => rfl
  | some element =>
    simp [hmode element hn, hw, hh]

/-- On an iframe that passes the first two gates and whose host view is resolvable,
the decision is the intersection test against the contents rectangle. -/
theorem flattenFrame_of_hostView (s : RenderIFrame) (view : MainFrameView)
    (hiframe : s.isIFrame = true)
    (hfree : s.isScrollable = true ∨ s.style.width.isFixed = false
      ∨ s.style.height.isFixed = false)
    (hen : s.embeddedBodyIsFrameset = true) (hv : s.hostView = some view) :
    s.flattenFrame = some (s.absoluteBoundingBoxRect.intersects view.contentsRect) := by
  unfold RenderIFrame.flattenFrame
  unfold RenderIFrame.embeddedBodyIsFrameset at hen
  unfold RenderIFrame.isIFrame at hiframe
  unfold RenderIFrame.isScrollable at hfree
  unfold RenderIFrame.hostView at hv
  cases hn : s.node with
  | none => simp [hn] at hiframe
  | some element =>
    simp only [hn] at hiframe hfree hv
    simp only [hen, hiframe]
    have h1 : (!(element.scrollingMode != ScrollbarMode.ScrollbarAlwaysOff)
        && s.style.width.isFixed && s.style.height.isFixed) = false := by
      rcases hfree with h | h | h <;> simp [h]
    simp only [h1]
    simp only [Option.some_bind] at hv
    cases hf : element.document.frame with
    | none => simp [hf] at hv
    | some frame =>
      simp only [hf, Option.some_bind] at hv
      cases hp : frame.page with
      | none => simp [hp] at hv
      | some page =>
        simp only [hp, Option.some_bind] at hv
        cases hm : page.mainFrame with
        | none => simp [hm] at hv
        | some mainFrame =>
          simp only [hm, Option.some_bind] at hv
          simp [hp, hm, hv]

/-- Whenever the host view of a box is resolvable and the box does not intersect the
contents rectangle, the decision is `false`. -/
theorem flattenFrame_of_not_intersects (s : RenderIFrame) (view : MainFrameView)
    (hv : s.hostView = some view)
    (hout : s.absoluteBoundingBoxRect.intersects view.contentsRect = false) :
    s.flattenFrame = some false := by
  cases hen : s.embeddedBodyIsFrameset with
  | false => exact flattenFrame_of_not_enabled s hen
  | true =>
    cases hi : s.isIFrame with
    | false =>
      unfold RenderIFrame.flattenFrame
      unfold RenderIFrame.isIFrame at hi
      cases hn : s.node with
      | none => rfl
      | some element =>
        simp only [hn] at hi
        simp [hi]
    | true =>
      by_cases hfree : s.isScrollable = true ∨ s.style.width.isFixed = false
          ∨ s.style.height.isFixed = false
      · rw [flattenFrame_of_hostView s view hi hfree hen hv, hout]
      · have h3 : s.isScrollable = false ∧ s.style.width.isFixed = true
            ∧ s.style.height.isFixed = true := by
          cases h1 : s.isScrollable <;> cases h2 : s.style.width.isFixed <;>
            cases h3 : s.style.height.isFixed <;> simp_all
        apply flattenFrame_of_fixed s _ h3.2.1 h3.2.2
        intro element hn
        have h4 := h3.1
        unfold RenderIFrame.isScrollable at h4
        simp only [hn] at h4
        simpa using h4

/-- Everything that a `true` decision implies about the state. -/
theorem flattenFrame_true_inv (s : RenderIFrame) (h : s.flattenFrame = some true) :
    s.isIFrame = true
      ∧ (s.isScrollable = true ∨ s.style.width.isFixed = false
          ∨ s.style.height.isFixed = false)
      ∧ s.embeddedBodyIsFrameset = true
      ∧ ∃ view, s.hostView = some view
          ∧ s.absoluteBoundingBoxRect.intersects view.contentsRect = true := by
  unfold RenderIFrame.flattenFrame at h
  unfold RenderIFrame.embeddedBodyIsFrameset RenderIFrame.isIFrame RenderIFrame.isScrollable
    RenderIFrame.hostView
  cases hn : s.node with
  | none => simp [hn] at h
  | some element =>
    simp only [hn] at h ⊢
    cases ht : element.hasTagName QualifiedName.iframeTag with
    | false => simp [ht] at h
    | true =>
      simp only [ht, Bool.not_true, Bool.false_eq_true, if_false] at h
      split at h
      · simp at h
      · rename_i hfix
        split at h
        · simp at h
        · rename_i hen
          refine ⟨rfl, ?_, by simpa using hen, ?_⟩
          · cases hs : (element.scrollingMode != ScrollbarMode.ScrollbarAlwaysOff) <;>
              cases hw : s.style.width.isFixed <;> cases hh : s.style.height.isFixed <;>
              simp_all
          · cases hf : element.document.frame with
            | none => simp [hf] at h
            | some frame =>
              cases hp : frame.page with
              | none => simp [hf, hp] at h
              | some page =>
                cases hm : page.mainFrame with
                | none => simp [hf, hp, hm] at h
                | some mainFrame =>
                  cases hv : mainFrame.view with
                  | none => simp [hf, hp, hm, hv] at h
                  | some view =>
                    simp only [hf, hp, hm, hv, Option.some.injEq] at h
                    exact ⟨view, by simp [hf, hp, hm, hv], h⟩

/-- Claim C1, as stated, fails: `belowContentsBox` is an iframe with Auto scrolling and
auto lengths that embeds a frameset document, and its bounding box (10, 450, 300, 100)
intersects the visible viewport rectangle (0, 0, 800, 600) of the host page; the code
tests it against (0, 0, 800, 400), the contents rectangle, and answers `false`. -/
theorem flattenFrame_visible_intersection_counterexample :
    belowContentsBox.isIFrame = true
      ∧ belowContentsBox.embeddedBodyIsFrameset = true
      ∧ belowContentsBox.hostView = some shortPageView
      ∧ belowContentsBox.absoluteBoundingBoxRect.intersects
          shortPageView.visibleViewportRect = true
      ∧ belowContentsBox.isScrollable = true
      ∧ belowContentsBox.style.width.isFixed = false
      ∧ belowContentsBox.flattenFrame = some false := by
  decide

/-- Claim C1 (amended): for every iframe box that has an embedded view whose document
body is a frameset, whose host main view is resolvable, whose absolute bounding box
intersects the rectangle anchored at (0, 0) with the contents size of that view, and
for which scrolling is not AlwaysOff or one of style width and style height is not
fixed, `flattenFrame` returns `true`. -/
theorem flattenFrame_true_of_intersects_contents (s : RenderIFrame) (view : MainFrameView)
    (hiframe : s.isIFrame = true)
    (hen : s.embeddedBodyIsFrameset = true)
    (hv : s.hostView = some view)
    (hint : s.absoluteBoundingBoxRect.intersects view.contentsRect = true)
    (hfree : s.isScrollable = true ∨ s.style.width.isFixed = false
      ∨ s.style.height.isFixed = false) :
    s.flattenFrame = some true := by
  rw [flattenFrame_of_hostView s view hiframe hfree hen hv, hint]

/-- Witness for claim C1 (amended) at `sampleBox`. -/
theorem flattenFrame_true_of_intersects_contents_witness :
    sampleBox.isIFrame = true
      ∧ sampleBox.embeddedBodyIsFrameset = true
      ∧ sampleBox.hostView = some sampleMainView
      ∧ sampleBox.absoluteBoundingBoxRect.intersects sampleMainView.contentsRect = true
      ∧ sampleBox.isScrollable = true
      ∧ sampleBox.flattenFrame = some true :=
  ⟨by decide, by decide, by decide, by decide, by decide,
    flattenFrame_true_of_intersects_contents sampleBox sampleMainView (by decide) (by decide)
      (by decide) (by decide) (Or.inl (by decide))⟩

/-- Claim C2: for every box whose scrolling mode is AlwaysOff and whose style width and
style height are both fixed lengths, `flattenFrame` returns `false`, whatever the
embedded view, its document, the page and the position of the box are. -/
theorem flattenFrame_false_of_alwaysOff_fixed (s : RenderIFrame)
    (hmode : ∀ element, s.node = some element →
      element.scrollingMode = ScrollbarMode.ScrollbarAlwaysOff)
    (hw : s.style.width.isFixed = true) (hh : s.style.height.isFixed = true) :
    s.flattenFrame = some false :=
  flattenFrame_of_fixed s hmode hw hh

/-- Witness for claim C2 at `fixedBox`: an on-screen iframe that embeds a frameset. -/
theorem flattenFrame_false_of_alwaysOff_fixed_witness :
    fixedBox.embeddedBodyIsFrameset = true
      ∧ fixedBox.absoluteBoundingBoxRect.intersects sampleMainView.contentsRect = true
      ∧ fixedBox.flattenFrame = some false :=
  ⟨by decide, by decide,
    flattenFrame_false_of_alwaysOff_fixed fixedBox
      (by intro element h; cases h; rfl) (by decide) (by decide)⟩

/-- Claim C3: for every box, if the embedded view is absent or the body of its document
is not a frameset, `flattenFrame` returns `false`, irrespective of the scrolling mode,
the fixedness of width and height, the position of the box, and the frame flattening
setting of the owning frame. -/
theorem flattenFrame_false_of_no_frameset (s : RenderIFrame)
    (h : s.widget = none ∨ s.embeddedBodyIsFrameset = false) :
    s.flattenFrame = some false := by
  apply flattenFrame_of_not_enabled
  rcases h with h | h
  · unfold RenderIFrame.embeddedBodyIsFrameset
    rw [h]
  · exact h

/-- Witness for claim C3 at `plainBodyBox`: on screen, scrollable, auto lengths, the
frame flattening setting switched on, an ordinary body. -/
theorem flattenFrame_false_of_no_frameset_witness :
    plainBodyBox.isScrollable = true
      ∧ plainBodyBox.absoluteBoundingBoxRect.intersects sampleMainView.contentsRect = true
      ∧ (plainBodyBox.node.bind fun e => e.document.frame.map fun f =>
          f.settings.frameFlatteningEnabled) = some true
      ∧ plainBodyBox.flattenFrame = some false :=
  ⟨by decide, by decide, by decide,
    flattenFrame_false_of_no_frameset plainBodyBox (Or.inr (by decide))⟩

/-! ## Logical height -/

/-- The baseline computation does not touch the owning side of the box. -/
theorem hostView_computeLogicalHeight (host : Host) (s : RenderIFrame) :
    (RenderPart.computeLogicalHeight host s).hostView = s.hostView := rfl

/-- The baseline computation does not touch the owning side of the box. -/
theorem hostView_computeLogicalWidth (host : Host) (s : RenderIFrame) :
    (RenderPart.computeLogicalWidth host s).hostView = s.hostView := rfl

/-- The decision has no result exactly on an iframe that passes the first two gates,
embeds a frameset and has a broken owner chain. -/
theorem flattenFrame_eq_none_iff (s : RenderIFrame) :
    s.flattenFrame = none ↔
      (s.isIFrame = true
        ∧ (s.isScrollable = true ∨ s.style.width.isFixed = false
            ∨ s.style.height.isFixed = false)
        ∧ s.embeddedBodyIsFrameset = true ∧ s.ownerChainBroken = true) := by
  unfold RenderIFrame.flattenFrame RenderIFrame.embeddedBodyIsFrameset RenderIFrame.isIFrame
    RenderIFrame.isScrollable RenderIFrame.ownerChainBroken
  cases hn : s.node with
  | none => simp
  | some element =>
    simp only []
    cases ht : element.hasTagName QualifiedName.iframeTag with
    | false => simp
    | true =>
      cases hs : (element.scrollingMode != ScrollbarMode.ScrollbarAlwaysOff) <;>
        cases hw : s.style.width.isFixed <;> cases hh : s.style.height.isFixed <;>
        simp only [Bool.not_true, Bool.not_false, Bool.false_eq_true, Bool.and_true,
          Bool.and_false, Bool.true_and, Bool.false_and, if_false, if_true, true_and,
          false_or, or_false, or_true, true_or, false_and, reduceCtorEq, iff_false,
          not_false_eq_true] <;>
        (split
         · simp_all
         · rename_i hen
           have hen2 := hen
           simp only [Bool.not_eq_true, Bool.not_eq_false] at hen2
           cases hf : element.document.frame with
           | none => simp_all
           | some frame =>
             cases hp : frame.page with
             | none => simp_all
             | some page =>
               cases hm : page.mainFrame with
               | none => simp_all
               | some mainFrame =>
                 cases hv : mainFrame.view <;> simp_all)

/-- When the decision is `false` the baseline state is the result. -/
theorem computeLogicalHeight_of_false (host : Host) (s : RenderIFrame)
    (h : (RenderPart.computeLogicalHeight host s).flattenFrame = some false) :
    RenderIFrame.computeLogicalHeight host s
      = some (RenderPart.computeLogicalHeight host s) := by
  unfold RenderIFrame.computeLogicalHeight
  simp only [h]

/-- When the decision has no result neither has the height computation. -/
theorem computeLogicalHeight_of_none (host : Host) (s : RenderIFrame)
    (h : (RenderPart.computeLogicalHeight host s).flattenFrame = none) :
    RenderIFrame.computeLogicalHeight host s = none := by
  unfold RenderIFrame.computeLogicalHeight
  simp only [h]

/-- When the decision is `true` the node and the embedded view are present, and the
result is decided by the scrolling mode and the style height alone. -/
theorem computeLogicalHeight_of_true (host : Host) (s : RenderIFrame)
    (h : (RenderPart.computeLogicalHeight host s).flattenFrame = some true) :
    ∃ view, s.widget = some view ∧
      RenderIFrame.computeLogicalHeight host s =
        some (if s.isScrollable = true ∨ s.style.height.isFixed = false then
            { RenderPart.computeLogicalHeight host s with
              height := max (host.partLogicalHeight s)
                (intAdd view.contentsHeight (intAdd s.borderTop s.borderBottom)) }
          else RenderPart.computeLogicalHeight host s) := by
  obtain ⟨hi, -, hen, -⟩ := flattenFrame_true_inv _ h
  unfold RenderIFrame.computeLogicalHeight
  simp only [h]
  unfold RenderIFrame.isIFrame at hi
  unfold RenderIFrame.embeddedBodyIsFrameset at hen
  unfold RenderIFrame.isScrollable
  have hnode : (RenderPart.computeLogicalHeight host s).node = s.node := rfl
  have hwidget : (RenderPart.computeLogicalHeight host s).widget = s.widget := rfl
  have hstyle : (RenderPart.computeLogicalHeight host s).style = s.style := rfl
  have hbt : (RenderPart.computeLogicalHeight host s).borderTop = s.borderTop := rfl
  have hbb : (RenderPart.computeLogicalHeight host s).borderBottom = s.borderBottom := rfl
  have hht : (RenderPart.computeLogicalHeight host s).height = host.partLogicalHeight s := rfl
  rw [hnode] at hi
  rw [hwidget] at hen
  rw [hnode, hwidget, hstyle, hbt, hbb, hht]
  cases hn : s.node with
  | none => simp [hn] at hi
  | some element =>
    cases hw : s.widget with
    | none => simp [hw] at hen
    | some view =>
      refine ⟨view, rfl, ?_⟩
      by_cases hm : element.scrollingMode = ScrollbarMode.ScrollbarAlwaysOff <;>
        cases hh : s.style.height.isFixed <;> simp [hm]

/-- Claim C4, as stated, fails where the `int` sum overflows: `hugeContentsBox` is
flattened and scrollable, its embedded view has contentsHeight 2147483647 and its top
border is 1, so max(baselineHeight, contentsHeight + borderTop + borderBottom) is
2147483648; the `int` sum wraps to -2147483648 and the height stays at the
baseline 150. -/
theorem computeLogicalHeight_overflow_counterexample :
    (RenderPart.computeLogicalHeight sampleHost hugeContentsBox).flattenFrame = some true
      ∧ hugeContentsBox.isScrollable = true
      ∧ hugeContentsBox.widget = some hugeView
      ∧ sampleHost.partLogicalHeight hugeContentsBox = 150
      ∧ max (sampleHost.partLogicalHeight hugeContentsBox)
          (hugeView.contentsHeight + hugeContentsBox.borderTop
            + hugeContentsBox.borderBottom) = 2147483648
      ∧ (RenderIFrame.computeLogicalHeight sampleHost hugeContentsBox).map
          RenderIFrame.height = some 150 := by
  decide

/-- Claim C4 (amended): for every box for which `flattenFrame` is true (on the state
that the baseline computation leaves, where the code evaluates it), for which scrolling
is not AlwaysOff or style height is not fixed, and for which
contentsHeight + borderTop + borderBottom of the embedded view is representable as an
`int`, `computeLogicalHeight` leaves the height equal to
max(baselineHeight, contentsHeight + borderTop + borderBottom), and changes nothing
else of the baseline state. -/
theorem computeLogicalHeight_flattened (host : Host) (s : RenderIFrame)
    (hflat : (RenderPart.computeLogicalHeight host s).flattenFrame = some true)
    (hfree : s.isScrollable = true ∨ s.style.height.isFixed = false)
    (hfits : ∀ view, s.widget = some view →
      fitsInt (view.contentsHeight + s.borderTop + s.borderBottom) = true) :
    ∃ view, s.widget = some view ∧
      RenderIFrame.computeLogicalHeight host s =
        some { RenderPart.computeLogicalHeight host s with
          height := max (host.partLogicalHeight s)
            (view.contentsHeight + s.borderTop + s.borderBottom) } := by
  obtain ⟨view, hw, hres⟩ := computeLogicalHeight_of_true host s hflat
  refine ⟨view, hw, ?_⟩
  rw [hres, if_pos hfree, intAdd_of_fits _ _ _ (hfits view hw)]

/-- Witness for claim C4 (amended) at `sampleBox`: auto height, Auto scrolling, a
frameset document with contentsHeight 800, no border, on screen, baseline height 150;
the height becomes max(150, 800) = 800. -/
theorem computeLogicalHeight_flattened_witness :
    sampleBox.style.height.isFixed = false
      ∧ sampleHost.partLogicalHeight sampleBox = 150
      ∧ ∃ view, sampleBox.widget = some view ∧ view.contentsHeight = 800 ∧
          RenderIFrame.computeLogicalHeight sampleHost sampleBox =
            some { RenderPart.computeLogicalHeight sampleHost sampleBox with
              height := max 150 800 } := by
  obtain ⟨view, hw, hres⟩ :=
    computeLogicalHeight_flattened sampleHost sampleBox (by decide) (Or.inl (by decide))
      (by intro view h; cases h; decide)
  refine ⟨by decide, by decide, view, hw, ?_, ?_⟩
  · have hv : view = embeddedView QualifiedName.framesetTag :=
      (Option.some.inj hw).symm
    rw [hv]
    decide
  · have hv : view = embeddedView QualifiedName.framesetTag :=
      (Option.some.inj hw).symm
    rw [hres, hv]
    decide

/-- Claim C5: for every box state, the height that `computeLogicalHeight` leaves is at
least the baseline height of `RenderPart::computeLogicalHeight`. The method leaves a
height on every state except those on which `flattenFrame` itself has no result: an
embedded frameset together with a broken owner chain. -/
theorem computeLogicalHeight_ge_baseline (host : Host) (s : RenderIFrame) :
    (∃ s', RenderIFrame.computeLogicalHeight host s = some s'
        ∧ host.partLogicalHeight s ≤ s'.height)
      ∨ (RenderIFrame.computeLogicalHeight host s = none
        ∧ s.embeddedBodyIsFrameset = true ∧ s.ownerChainBroken = true) := by
  cases hf : (RenderPart.computeLogicalHeight host s).flattenFrame with
  | none =>
    right
    have h := (flattenFrame_eq_none_iff _).1 hf
    exact ⟨computeLogicalHeight_of_none host s hf, h.2.2.1, h.2.2.2⟩
  | some b =>
    left
    cases b with
    | false =>
      exact ⟨_, computeLogicalHeight_of_false host s hf, le_refl _⟩
    | true =>
      obtain ⟨view, -, hres⟩ := computeLogicalHeight_of_true host s hf
      refine ⟨_, hres, ?_⟩
      split
      · exact le_max_left _ _
      · exact le_refl _

/-- Claim C6, as stated, fails: `belowFoldBox` is an iframe with auto height and Auto
scrolling that embeds a frameset document; its bounding box (10, 1500, 300, 150) lies
entirely below the visible viewport rectangle (0, 0, 800, 600) of the host page, yet
`flattenFrame` returns `true` and `computeLogicalHeight` raises the height from the
baseline 150 to 800. -/
theorem flattenFrame_below_fold_counterexample :
    belowFoldBox.isIFrame = true
      ∧ belowFoldBox.hostView = some sampleMainView
      ∧ sampleMainView.visibleViewportRect.maxY ≤ belowFoldBox.absoluteBoundingBoxRect.y
      ∧ belowFoldBox.absoluteBoundingBoxRect.intersects
          sampleMainView.visibleViewportRect = false
      ∧ belowFoldBox.flattenFrame = some true
      ∧ sampleHost.partLogicalHeight belowFoldBox = 150
      ∧ (RenderIFrame.computeLogicalHeight sampleHost belowFoldBox).map
          RenderIFrame.height = some 800 := by
  decide

/-- Claim C6 (amended): for every box whose host main view is resolvable and whose
absolute bounding box does not intersect the rectangle anchored at (0, 0) with the
contents size of that view, `flattenFrame` returns `false` and `computeLogicalHeight`
leaves the height equal to the baseline height. -/
theorem computeLogicalHeight_baseline_of_outside_contents (host : Host) (s : RenderIFrame)
    (view : MainFrameView) (hv : s.hostView = some view)
    (hout : (RenderPart.computeLogicalHeight host s).absoluteBoundingBoxRect.intersects
      view.contentsRect = false) :
    (RenderPart.computeLogicalHeight host s).flattenFrame = some false
      ∧ ∃ s', RenderIFrame.computeLogicalHeight host s = some s'
          ∧ s'.height = host.partLogicalHeight s := by
  have hf := flattenFrame_of_not_intersects (RenderPart.computeLogicalHeight host s) view
    ((hostView_computeLogicalHeight host s).trans hv) hout
  exact ⟨hf, _, computeLogicalHeight_of_false host s hf, rfl⟩

/-- Witness for claim C6 (amended) at `offPageBox`: auto height, Auto scrolling, an
embedded frameset, the box at x = -5000. -/
theorem computeLogicalHeight_baseline_of_outside_contents_witness :
    offPageBox.embeddedBodyIsFrameset = true
      ∧ offPageBox.isScrollable = true
      ∧ (RenderPart.computeLogicalHeight sampleHost offPageBox).flattenFrame = some false
      ∧ ∃ s', RenderIFrame.computeLogicalHeight sampleHost offPageBox = some s'
          ∧ s'.height = sampleHost.partLogicalHeight offPageBox :=
  ⟨by decide, by decide,
    computeLogicalHeight_baseline_of_outside_contents sampleHost offPageBox sampleMainView
      (by decide) (by decide)⟩

/-! ## Absent pointers on the owning side -/

/-- Claim C7 fails on the code at `detachedOwnerBox`: an iframe with Auto scrolling and
auto lengths that embeds a frameset document and whose owning document has no frame.
Flattening is enabled, so `!enabled || !frame->page()` evaluates `frame->page()`
through the absent frame: `flattenFrame` has no result instead of `false`. -/
theorem flattenFrame_detached_owner_no_result :
    detachedOwnerBox.isIFrame = true
      ∧ detachedOwnerBox.embeddedBodyIsFrameset = true
      ∧ detachedOwnerBox.node.map (fun element => element.document.frame) = some none
      ∧ detachedOwnerBox.flattenFrame = none := by
  decide

/-! ## Logical width -/

/-- When the decision is `false` the baseline state is the result. -/
theorem computeLogicalWidth_of_false (host : Host) (s : RenderIFrame)
    (h : (RenderPart.computeLogicalWidth host s).flattenFrame = some false) :
    RenderIFrame.computeLogicalWidth host s
      = some (RenderPart.computeLogicalWidth host s) := by
  unfold RenderIFrame.computeLogicalWidth
  simp only [h]

/-- When the decision is `true` the node and the embedded view are present, and the
result is decided by the scrolling mode and the style width alone. -/
theorem computeLogicalWidth_of_true (host : Host) (s : RenderIFrame)
    (h : (RenderPart.computeLogicalWidth host s).flattenFrame = some true) :
    ∃ view, s.widget = some view ∧
      RenderIFrame.computeLogicalWidth host s =
        some (if s.isScrollable = true ∨ s.style.width.isFixed = false then
            { RenderPart.computeLogicalWidth host s with
              width := max (host.partLogicalWidth s)
                (intAdd view.contentsWidth (intAdd s.borderLeft s.borderRight)) }
          else RenderPart.computeLogicalWidth host s) := by
  obtain ⟨hi, -, hen, -⟩ := flattenFrame_true_inv _ h
  unfold RenderIFrame.computeLogicalWidth
  simp only [h]
  unfold RenderIFrame.isIFrame at hi
  unfold RenderIFrame.embeddedBodyIsFrameset at hen
  unfold RenderIFrame.isScrollable
  have hnode : (RenderPart.computeLogicalWidth host s).node = s.node := rfl
  have hwidget : (RenderPart.computeLogicalWidth host s).widget = s.widget := rfl
  have hstyle : (RenderPart.computeLogicalWidth host s).style = s.style := rfl
  have hbl : (RenderPart.computeLogicalWidth host s).borderLeft = s.borderLeft := rfl
  have hbr : (RenderPart.computeLogicalWidth host s).borderRight = s.borderRight := rfl
  have hwd : (RenderPart.computeLogicalWidth host s).width = host.partLogicalWidth s := rfl
  rw [hnode] at hi
  rw [hwidget] at hen
  rw [hnode, hwidget, hstyle, hbl, hbr, hwd]
  cases hn : s.node with
  | none => simp [hn] at hi
  | some element =>
    cases hw : s.widget with
    | none => simp [hw] at hen
    | some view =>
      refine ⟨view, rfl, ?_⟩
      by_cases hm : element.scrollingMode = ScrollbarMode.ScrollbarAlwaysOff <;>
        cases hh : s.style.width.isFixed <;> simp [hm]

/-- Claim C9, as stated, fails where the `int` sum overflows:
`hugeContentsFixedHeightBox` is flattened, has AlwaysOff scrolling and a fixed style
height, its embedded view has contentsWidth 2147483647 and its left border is 1, so
max(baselineWidth, contentsWidth + borderLeft + borderRight) is 2147483648; the `int`
sum wraps to -2147483648 and the width stays at the baseline 300. -/
theorem computeLogicalWidth_overflow_counterexample :
    (RenderPart.computeLogicalHeight sampleHost hugeContentsFixedHeightBox).flattenFrame
        = some true
      ∧ (RenderPart.computeLogicalWidth sampleHost hugeContentsFixedHeightBox).flattenFrame
        = some true
      ∧ hugeContentsFixedHeightBox.isScrollable = false
      ∧ hugeContentsFixedHeightBox.style.height.isFixed = true
      ∧ hugeContentsFixedHeightBox.widget = some hugeView
      ∧ sampleHost.partLogicalWidth hugeContentsFixedHeightBox = 300
      ∧ max (sampleHost.partLogicalWidth hugeContentsFixedHeightBox)
          (hugeView.contentsWidth + hugeContentsFixedHeightBox.borderLeft
            + hugeContentsFixedHeightBox.borderRight) = 2147483648
      ∧ (RenderIFrame.computeLogicalWidth sampleHost hugeContentsFixedHeightBox).map
          RenderIFrame.width = some 300 := by
  decide

/-- Claim C9 (amended): for every box for which `flattenFrame` is true (on the state
each method evaluates it on), whose scrolling mode is AlwaysOff and whose style height
is fixed, the style width is not fixed, `computeLogicalHeight` leaves the baseline
state (height equal to the baseline height, no override), and `computeLogicalWidth`
sets the width to max(baselineWidth, contentsWidth + borderLeft + borderRight) of the
embedded view whenever contentsWidth + borderLeft + borderRight is representable as an
`int`. -/
theorem computeLogicalHeight_kept_width_flattened (host : Host) (s : RenderIFrame)
    (hflatH : (RenderPart.computeLogicalHeight host s).flattenFrame = some true)
    (hflatW : (RenderPart.computeLogicalWidth host s).flattenFrame = some true)
    (hmode : s.isScrollable = false) (hfixed : s.style.height.isFixed = true) :
    s.style.width.isFixed = false
      ∧ RenderIFrame.computeLogicalHeight host s
          = some (RenderPart.computeLogicalHeight host s)
      ∧ (RenderPart.computeLogicalHeight host s).height = host.partLogicalHeight s
      ∧ ∃ view, s.widget = some view ∧
          (fitsInt (view.contentsWidth + s.borderLeft + s.borderRight) = true →
            RenderIFrame.computeLogicalWidth host s =
              some { RenderPart.computeLogicalWidth host s with
                width := max (host.partLogicalWidth s)
                  (view.contentsWidth + s.borderLeft + s.borderRight) }) := by
  have hwidth : s.style.width.isFixed = false := by
    obtain ⟨-, hfree, -, -⟩ := flattenFrame_true_inv _ hflatW
    have h1 : (RenderPart.computeLogicalWidth host s).isScrollable = s.isScrollable := rfl
    have h2 : (RenderPart.computeLogicalWidth host s).style = s.style := rfl
    rw [h1, h2, hmode, hfixed] at hfree
    simpa using hfree
  refine ⟨hwidth, ?_, rfl, ?_⟩
  · obtain ⟨view, -, hres⟩ := computeLogicalHeight_of_true host s hflatH
    rw [hres, if_neg]
    simp [hmode, hfixed]
  · obtain ⟨view, hw, hres⟩ := computeLogicalWidth_of_true host s hflatW
    refine ⟨view, hw, ?_⟩
    intro hfits
    rw [hres, if_pos (Or.inr hwidth), intAdd_of_fits _ _ _ hfits]

/-- Witness for claim C9 (amended) at `fixedHeightBox`: the height stays at the
baseline 200, the width grows from 300 to the contents width 640. -/
theorem computeLogicalHeight_kept_width_flattened_witness :
    fixedHeightBox.isScrollable = false
      ∧ fixedHeightBox.style.height.isFixed = true
      ∧ sampleHost.partLogicalHeight fixedHeightBox = 200
      ∧ (RenderIFrame.computeLogicalHeight sampleHost fixedHeightBox).map
          RenderIFrame.height = some 200
      ∧ (RenderIFrame.computeLogicalWidth sampleHost fixedHeightBox).map
          RenderIFrame.width = some 640 := by
  have h := computeLogicalHeight_kept_width_flattened sampleHost fixedHeightBox
    (by decide) (by decide) (by decide) (by decide)
  obtain ⟨-, hH, -, view, hw, hW⟩ := h
  have hv : view = embeddedView QualifiedName.framesetTag := (Option.some.inj hw).symm
  subst hv
  refine ⟨by decide, by decide, by decide, ?_, ?_⟩
  · rw [hH]
    decide
  · rw [hW (by decide)]
    decide

/-! ## Layout -/

/-- Claim C8: for every box with AlwaysOff scrolling and fixed style width and height,
whatever it embeds and wherever it is, `layout` does not flatten: its calls are the two
baseline computations, `RenderPart::layout()` and the closing steps, never
`layoutWithFlattening`; the state handed to `RenderPart::layout()` has the baseline
width and height, and the box still has them after `layout` whenever the host
procedures keep the size of the box. -/
theorem layout_not_flattened_of_alwaysOff_fixed (host : Host) (s : RenderIFrame)
    (hmode : ∀ element, s.node = some element →
      element.scrollingMode = ScrollbarMode.ScrollbarAlwaysOff)
    (hw : s.style.width.isFixed = true) (hh : s.style.height.isFixed = true) :
    ∃ final calls,
      RenderIFrame.layout host s = some (final, calls)
        ∧ calls = [HostCall.partComputeLogicalWidth, HostCall.partComputeLogicalHeight,
            HostCall.partLayout, HostCall.overflowClear, HostCall.addShadowOverflow,
            HostCall.updateLayerTransform, HostCall.setNeedsLayout false]
        ∧ (∀ fixedWidth fixedHeight,
            HostCall.layoutWithFlattening fixedWidth fixedHeight ∉ calls)
        ∧ final =
            { host.updateLayerTransform (host.addShadowOverflow
                { host.partLayout (RenderPart.computeLogicalHeight host
                    (RenderPart.computeLogicalWidth host s)) with m_overflow := none }) with
              needsLayout := false }
        ∧ (RenderPart.computeLogicalHeight host
              (RenderPart.computeLogicalWidth host s)).width = host.partLogicalWidth s
        ∧ (RenderPart.computeLogicalHeight host
              (RenderPart.computeLogicalWidth host s)).height
            = host.partLogicalHeight (RenderPart.computeLogicalWidth host s)
        ∧ (Host.keepsSize host.partLayout → Host.keepsSize host.addShadowOverflow →
            Host.keepsSize host.updateLayerTransform →
            final.width = host.partLogicalWidth s
              ∧ final.height
                = host.partLogicalHeight (RenderPart.computeLogicalWidth host s)) := by
  have hf : (RenderPart.computeLogicalHeight host
      (RenderPart.computeLogicalWidth host s)).flattenFrame = some false :=
    flattenFrame_of_fixed _ hmode hw hh
  refine ⟨_, _, ?_, rfl, ?_, rfl, rfl, rfl, ?_⟩
  · unfold RenderIFrame.layout
    simp only [hf]
  · intro a b
    simp
  · intro h1 h2 h3
    constructor
    · show (host.updateLayerTransform _).width = _
      rw [(h3 _).1, (h2 _).1]
      show (host.partLayout _).width = _
      rw [(h1 _).1]
      rfl
    · show (host.updateLayerTransform _).height = _
      rw [(h3 _).2, (h2 _).2]
      show (host.partLayout _).height = _
      rw [(h1 _).2]
      rfl

/-- Witness for claim C8 at `fixedBox` (style 300 by 200 fixed, AlwaysOff scrolling, an
embedded frameset, on screen) with a host whose procedures change nothing: the box is
300 by 200 after `layout`. -/
theorem layout_not_flattened_of_alwaysOff_fixed_witness :
    fixedBox.embeddedBodyIsFrameset = true
      ∧ fixedBox.absoluteBoundingBoxRect.intersects sampleMainView.contentsRect = true
      ∧ ∃ final calls,
          RenderIFrame.layout sampleHost fixedBox = some (final, calls)
            ∧ HostCall.partLayout ∈ calls
            ∧ (∀ fixedWidth fixedHeight,
                HostCall.layoutWithFlattening fixedWidth fixedHeight ∉ calls)
            ∧ final.width = 300 ∧ final.height = 200 := by
  obtain ⟨final, calls, hl, hc, hno, -, -, -, hsize⟩ :=
    layout_not_flattened_of_alwaysOff_fixed sampleHost fixedBox
      (by intro element h; cases h; rfl) (by decide) (by decide)
  have hk : Host.keepsSize (fun s : RenderIFrame => s) := fun _ => ⟨rfl, rfl⟩
  obtain ⟨h1, h2⟩ := hsize hk hk hk
  refine ⟨by decide, by decide, final, calls, hl, ?_, hno, ?_, ?_⟩
  · rw [hc]
    simp
  · rw [h1]
    decide
  · rw [h2]
    decide

/-! ## Width as the mirror of height -/

/-- Swapping the axes of an embedded view twice gives the view back. -/
theorem frameView_swapAxes_involutive (v : FrameView) : v.swapAxes.swapAxes = v := rfl

/-- Swapping the axes of a box twice gives the box back. -/
theorem renderIFrame_swapAxes_involutive (s : RenderIFrame) : s.swapAxes.swapAxes = s := by
  cases s with
  | mk node style widget x y width height bt bb bl br ov nl =>
    cases widget <;> rfl

/-- The baseline height of the swapped host on the swapped box is the swapped
baseline width state. -/
theorem computeLogicalHeight_swapAxes (host : Host) (s : RenderIFrame) :
    RenderPart.computeLogicalHeight host.swapAxes s.swapAxes
      = (RenderPart.computeLogicalWidth host s).swapAxes := by
  unfold RenderPart.computeLogicalHeight RenderPart.computeLogicalWidth
  show { s.swapAxes with height := host.partLogicalWidth s.swapAxes.swapAxes } = _
  rw [renderIFrame_swapAxes_involutive]
  rfl

/-- Claim C10: for every box state on which the decision of `flattenFrame` is
invariant under the axis swap, `computeLogicalWidth` gives the same result as swapping
the axes of the state and of the baseline, applying `computeLogicalHeight`, and
swapping back. -/
theorem computeLogicalWidth_eq_mirrored (host : Host) (s : RenderIFrame)
    (hinv : (RenderPart.computeLogicalWidth host s).swapAxes.flattenFrame
      = (RenderPart.computeLogicalWidth host s).flattenFrame) :
    RenderIFrame.computeLogicalWidth host s
      = RenderIFrame.mirroredComputeLogicalHeight host s := by
  unfold RenderIFrame.mirroredComputeLogicalHeight
  unfold RenderIFrame.computeLogicalHeight RenderIFrame.computeLogicalWidth
  simp only [computeLogicalHeight_swapAxes, hinv]
  cases hf : (RenderPart.computeLogicalWidth host s).flattenFrame with
  | none => rfl
  | some b =>
    cases b with
    | false =>
      simp only [Option.map_some', renderIFrame_swapAxes_involutive]
    | true =>
      have hnode : (RenderPart.computeLogicalWidth host s).swapAxes.node
          = (RenderPart.computeLogicalWidth host s).node := rfl
      simp only [hnode]
      cases hn : (RenderPart.computeLogicalWidth host s).node with
      | none => rfl
      | some frame =>
        have hstyle : (RenderPart.computeLogicalWidth host s).swapAxes.style.height
            = (RenderPart.computeLogicalWidth host s).style.width := rfl
        have hwidget : (RenderPart.computeLogicalWidth host s).swapAxes.widget
            = (RenderPart.computeLogicalWidth host s).widget.map FrameView.swapAxes := rfl
        simp only [hstyle, hwidget]
        split
        · cases hw : (RenderPart.computeLogicalWidth host s).widget with
          | none =>
            simp only [Option.map_none', Option.map_some', renderIFrame_swapAxes_involutive]
          | some view =>
            simp only [Option.map_some']
            congr 1
        · simp only [Option.map_some', renderIFrame_swapAxes_involutive]

/-- Witness for claim C10 at `sampleBox`, whose bounding box and whose swapped
bounding box both intersect the contents of the host page. -/
theorem computeLogicalWidth_eq_mirrored_witness :
    (RenderPart.computeLogicalWidth sampleHost sampleBox).swapAxes.flattenFrame = some true
      ∧ (RenderPart.computeLogicalWidth sampleHost sampleBox).flattenFrame = some true
      ∧ (RenderIFrame.computeLogicalWidth sampleHost sampleBox).map RenderIFrame.width
          = some 640
      ∧ RenderIFrame.computeLogicalWidth sampleHost sampleBox
          = RenderIFrame.mirroredComputeLogicalHeight sampleHost sampleBox :=
  ⟨by decide, by decide, by decide,
    computeLogicalWidth_eq_mirrored sampleHost sampleBox (by decide)⟩

/-! ## Nodes that are not iframes -/

/-- A box whose node is absent or is not an iframe is rejected at the first test. -/
theorem flattenFrame_of_not_iframe (s : RenderIFrame) (h : s.isIFrame = false) :
    s.flattenFrame = some false := by
  unfold RenderIFrame.flattenFrame
  unfold RenderIFrame.isIFrame at h
  cases hn : s.node with
  | none => rfl
  | some element =>
    simp only [hn] at h
    simp [h]

/-- Claim C11: for every box whose node is absent or is not an iframe element,
`flattenFrame` returns `false`, whatever the scrolling mode, the style, the embedded
view and the page are, and `computeLogicalWidth` and `computeLogicalHeight` leave the
baseline states: the width is the baseline width, the height the baseline height. -/
theorem flattenFrame_false_of_not_iframe (host : Host) (s : RenderIFrame)
    (h : s.node = none ∨ s.isIFrame = false) :
    s.flattenFrame = some false
      ∧ RenderIFrame.computeLogicalWidth host s
          = some (RenderPart.computeLogicalWidth host s)
      ∧ (RenderPart.computeLogicalWidth host s).width = host.partLogicalWidth s
      ∧ RenderIFrame.computeLogicalHeight host s
          = some (RenderPart.computeLogicalHeight host s)
      ∧ (RenderPart.computeLogicalHeight host s).height = host.partLogicalHeight s := by
  have hi : s.isIFrame = false := by
    rcases h with h | h
    · unfold RenderIFrame.isIFrame
      rw [h]
    · exact h
  refine ⟨flattenFrame_of_not_iframe s hi, ?_, rfl, ?_, rfl⟩
  · exact computeLogicalWidth_of_false host s (flattenFrame_of_not_iframe _ hi)
  · exact computeLogicalHeight_of_false host s (flattenFrame_of_not_iframe _ hi)

/-- Witness for claim C11 at `objectBox` (an `object` element that scrolls, embeds a
frameset and is on screen) and at `anonymousBox` (no node). -/
theorem flattenFrame_false_of_not_iframe_witness :
    (objectBox.embeddedBodyIsFrameset = true
      ∧ objectBox.isScrollable = true
      ∧ objectBox.absoluteBoundingBoxRect.intersects sampleMainView.contentsRect = true
      ∧ objectBox.flattenFrame = some false
      ∧ (RenderIFrame.computeLogicalHeight sampleHost objectBox).map RenderIFrame.height
          = some 150)
      ∧ anonymousBox.flattenFrame = some false := by
  have h1 := flattenFrame_false_of_not_iframe sampleHost objectBox (Or.inr (by decide))
  have h2 := flattenFrame_false_of_not_iframe sampleHost anonymousBox (Or.inl rfl)
  refine ⟨⟨by decide, by decide, by decide, h1.1, ?_⟩, h2.1⟩
  rw [h1.2.2.2.1]
  decide

/-! ## The intersection test at boundaries -/

/-- The intersection test does not depend on the order of its rectangles. -/
theorem intersects_comm (r other : IntRect) : r.intersects other = other.intersects r := by
  unfold IntRect.intersects
  cases r.isEmpty <;> cases other.isEmpty <;>
    cases decide (r.x < other.maxX) <;> cases decide (other.x < r.maxX) <;>
    cases decide (r.y < other.maxY) <;> cases decide (other.y < r.maxY) <;> rfl

/-- Rectangles that share only an edge do not intersect. -/
theorem intersects_of_sharesOnlyEdge (r other : IntRect)
    (h : r.sharesOnlyEdge other = true) : r.intersects other = false := by
  unfold IntRect.sharesOnlyEdge IntRect.overlapWidth IntRect.overlapHeight at h
  unfold IntRect.intersects IntRect.isEmpty
  unfold IntRect.maxX IntRect.maxY at *
  simp only [Bool.and_eq_true, Bool.or_eq_true, decide_eq_true_eq] at h
  by_contra hne
  simp only [Bool.not_eq_false, Bool.and_eq_true, Bool.not_eq_true', Bool.or_eq_false_iff,
    decide_eq_false_iff_not, decide_eq_true_eq, not_le] at hne
  omega

/-- Claim C12: for every box whose host view is resolvable and whose absolute bounding
rectangle shares only an edge (zero-area overlap) with the contents rectangle that
`flattenFrame` tests it against, the intersection test is `false` and `flattenFrame`
returns `false`; and the test is symmetric in its two rectangles. -/
theorem flattenFrame_false_of_sharesOnlyEdge (s : RenderIFrame) (view : MainFrameView)
    (hv : s.hostView = some view)
    (hedge : s.absoluteBoundingBoxRect.sharesOnlyEdge view.contentsRect = true) :
    s.absoluteBoundingBoxRect.intersects view.contentsRect = false
      ∧ s.flattenFrame = some false
      ∧ ∀ r other : IntRect, r.intersects other = other.intersects r :=
  ⟨intersects_of_sharesOnlyEdge _ _ hedge,
    flattenFrame_of_not_intersects s view hv (intersects_of_sharesOnlyEdge _ _ hedge),
    intersects_comm⟩

/-- Witness for claim C12 at `edgeBox`, whose left edge x = 800 is the right edge of
the contents rectangle; one unit to the left the same box is flattened. -/
theorem flattenFrame_false_of_sharesOnlyEdge_witness :
    edgeBox.isIFrame = true
      ∧ edgeBox.embeddedBodyIsFrameset = true
      ∧ edgeBox.absoluteBoundingBoxRect.x = sampleMainView.contentsRect.maxX
      ∧ RenderIFrame.flattenFrame { edgeBox with x := 799 } = some true
      ∧ edgeBox.absoluteBoundingBoxRect.intersects sampleMainView.contentsRect = false
      ∧ edgeBox.flattenFrame = some false :=
  have h := flattenFrame_false_of_sharesOnlyEdge edgeBox sampleMainView (by decide)
    (by decide)
  ⟨by decide, by decide, by decide, by decide, h.1, h.2.1⟩

/-! ## The two paths of `layout` -/

/-- Unfolding of `layout` on the flattening path. -/
theorem layout_of_true (host : Host) (s : RenderIFrame)
    (h : (RenderPart.computeLogicalHeight host
      (RenderPart.computeLogicalWidth host s)).flattenFrame = some true) :
    RenderIFrame.layout host s =
      some (host.layoutWithFlattening s.style.width.isFixed s.style.height.isFixed
          (RenderPart.computeLogicalHeight host (RenderPart.computeLogicalWidth host s)),
        [HostCall.partComputeLogicalWidth, HostCall.partComputeLogicalHeight,
          HostCall.layoutWithFlattening s.style.width.isFixed s.style.height.isFixed]) := by
  unfold RenderIFrame.layout
  simp only [h]
  rfl

/-- Unfolding of `layout` on the standard path. -/
theorem layout_of_false (host : Host) (s : RenderIFrame)
    (h : (RenderPart.computeLogicalHeight host
      (RenderPart.computeLogicalWidth host s)).flattenFrame = some false) :
    RenderIFrame.layout host s =
      some ({ host.updateLayerTransform (host.addShadowOverflow
            { host.partLayout (RenderPart.computeLogicalHeight host
                (RenderPart.computeLogicalWidth host s)) with m_overflow := none }) with
          needsLayout := false },
        [HostCall.partComputeLogicalWidth, HostCall.partComputeLogicalHeight,
          HostCall.partLayout, HostCall.overflowClear, HostCall.addShadowOverflow,
          HostCall.updateLayerTransform, HostCall.setNeedsLayout false]) := by
  unfold RenderIFrame.layout
  simp only [h]

/-- Unfolding of `layout` where the decision has no result. -/
theorem layout_of_none (host : Host) (s : RenderIFrame)
    (h : (RenderPart.computeLogicalHeight host
      (RenderPart.computeLogicalWidth host s)).flattenFrame = none) :
    RenderIFrame.layout host s = none := by
  unfold RenderIFrame.layout
  simp only [h]

/-- Claim C13 fails on the code at `detachedOwnerBox` (the failing state of claim C7),
with every host: after the two baseline computations `flattenFrame` evaluates
`frame->page()` through the absent owning frame, so `layout` has no result and
invokes neither `layoutWithFlattening` nor `RenderPart::layout()`. -/
theorem layout_detached_owner_no_delegate (host : Host) :
    detachedOwnerBox.isIFrame = true
      ∧ detachedOwnerBox.embeddedBodyIsFrameset = true
      ∧ detachedOwnerBox.node.map (fun element => element.document.frame) = some none
      ∧ (RenderPart.computeLogicalHeight host
          (RenderPart.computeLogicalWidth host detachedOwnerBox)).flattenFrame = none
      ∧ RenderIFrame.layout host detachedOwnerBox = none := by
  have hf : (RenderPart.computeLogicalHeight host
      (RenderPart.computeLogicalWidth host detachedOwnerBox)).flattenFrame = none := by
    rw [flattenFrame_eq_none_iff]
    exact ⟨rfl, Or.inl rfl, rfl, rfl⟩
  exact ⟨by decide, by decide, by decide, hf, layout_of_none host detachedOwnerBox hf⟩

/-- Claim C14, as stated, fails on the flattening path: `overflowBox` is flattened, and
with a host whose `layoutWithFlattening` changes nothing `layout` makes no call after
`layoutWithFlattening`: the overflow rectangle is still there and `needsLayout` is
still true when `layout` returns. -/
theorem layout_flattening_skips_closing_steps_counterexample :
    overflowBox.needsLayout = true
      ∧ (RenderPart.computeLogicalHeight sampleHost
          (RenderPart.computeLogicalWidth sampleHost overflowBox)).flattenFrame = some true
      ∧ (RenderIFrame.layout sampleHost overflowBox).map Prod.snd
          = some [HostCall.partComputeLogicalWidth, HostCall.partComputeLogicalHeight,
              HostCall.layoutWithFlattening false false]
      ∧ (RenderIFrame.layout sampleHost overflowBox).map (fun r => r.1.needsLayout)
          = some true
      ∧ (RenderIFrame.layout sampleHost overflowBox).map (fun r => r.1.m_overflow)
          = some (some { x := 0, y := 0, width := 400, height := 400 }) := by
  decide

/-- Claim C14 (amended): for every box, on the non-flattening path (`flattenFrame` false
after the baseline computation) `layout` itself finishes, after `RenderPart::layout()`,
by clearing the overflow, re-accumulating shadow overflow, refreshing the layer
transform and clearing the needs-layout flag, so `needsLayout` is false after `layout`
whatever the host procedures did; on the flattening path `layout` returns right after
`layoutWithFlattening`, and the state it leaves, the needs-layout flag included, is
the one that delegate left. -/
theorem layout_closing_steps (host : Host) (s : RenderIFrame) :
    ((RenderPart.computeLogicalHeight host
          (RenderPart.computeLogicalWidth host s)).flattenFrame = some false →
        ∃ final calls, RenderIFrame.layout host s = some (final, calls)
          ∧ calls.drop 3 = [HostCall.overflowClear, HostCall.addShadowOverflow,
              HostCall.updateLayerTransform, HostCall.setNeedsLayout false]
          ∧ final =
              { host.updateLayerTransform (host.addShadowOverflow
                  { host.partLayout (RenderPart.computeLogicalHeight host
                      (RenderPart.computeLogicalWidth host s)) with m_overflow := none }) with
                needsLayout := false }
          ∧ final.needsLayout = false)
      ∧ ((RenderPart.computeLogicalHeight host
          (RenderPart.computeLogicalWidth host s)).flattenFrame = some true →
        ∃ final calls, RenderIFrame.layout host s = some (final, calls)
          ∧ calls.getLast? = some (HostCall.layoutWithFlattening s.style.width.isFixed
              s.style.height.isFixed)
          ∧ final = host.layoutWithFlattening s.style.width.isFixed
              s.style.height.isFixed (RenderPart.computeLogicalHeight host
                (RenderPart.computeLogicalWidth host s))) := by
  constructor
  · intro hf
    exact ⟨_, _, layout_of_false host s hf, rfl, rfl, rfl⟩
  · intro hf
    exact ⟨_, _, layout_of_true host s hf, rfl, rfl⟩

/-- Witness for claim C14 (amended): with `dirtyHost`, `plainBodyBox` (standard path)
ends with the overflow cleared and `needsLayout` false, and `sampleBox` (flattening
path) ends in the state `layoutWithFlattening` left, `needsLayout` still true. -/
theorem layout_closing_steps_witness :
    (∃ final calls, RenderIFrame.layout dirtyHost plainBodyBox = some (final, calls)
        ∧ calls.drop 3 = [HostCall.overflowClear, HostCall.addShadowOverflow,
            HostCall.updateLayerTransform, HostCall.setNeedsLayout false]
        ∧ final.m_overflow = none ∧ final.needsLayout = false)
      ∧ (∃ final calls, RenderIFrame.layout dirtyHost sampleBox = some (final, calls)
        ∧ calls.getLast? = some (HostCall.layoutWithFlattening false false)
        ∧ final.needsLayout = true) := by
  obtain ⟨final, calls, hl, hc, hfinal, hneeds⟩ :=
    (layout_closing_steps dirtyHost plainBodyBox).1 (by decide)
  obtain ⟨final2, calls2, hl2, hc2, hfinal2⟩ :=
    (layout_closing_steps dirtyHost sampleBox).2 (by decide)
  refine ⟨⟨final, calls, hl, hc, ?_, hneeds⟩, ⟨final2, calls2, hl2, hc2, ?_⟩⟩
  · rw [hfinal]
    decide
  · rw [hfinal2]
    decide

/-! ## The embedded view behind a `true` decision -/

/-- Claim C15, as stated, fails where the `int` sum overflows: `hugeContentsBox` is
flattened and scrollable, its embedded view has contentsWidth 2147483647 and its left
border is 1, so max(baseline, contents size + border) is 2147483648 on the width axis;
the `int` sum wraps to -2147483648 and the width stays at the baseline 300. -/
theorem flattenFrame_true_override_overflow_counterexample :
    (RenderPart.computeLogicalWidth sampleHost hugeContentsBox).flattenFrame = some true
      ∧ hugeContentsBox.isScrollable = true
      ∧ hugeContentsBox.widget = some hugeView
      ∧ sampleHost.partLogicalWidth hugeContentsBox = 300
      ∧ max (sampleHost.partLogicalWidth hugeContentsBox)
          (hugeView.contentsWidth + (hugeContentsBox.borderLeft
            + hugeContentsBox.borderRight)) = 2147483648
      ∧ (RenderIFrame.computeLogicalWidth sampleHost hugeContentsBox).map
          RenderIFrame.width = some 300 := by
  decide

/-- Claim C15 (amended): whenever `flattenFrame` returns `true` the embedded view
(widget) of the box is present, so the early return for an absent view in
`computeLogicalHeight` and `computeLogicalWidth` is never taken: when `flattenFrame` is
true on the state a method evaluates it on, the box is scrollable or the style length
of the axis is not fixed, and contents size + border is representable as an `int`, the
method overrides that axis with max(baseline, contents size + border). -/
theorem flattenFrame_true_widget_present (host : Host) (s : RenderIFrame) :
    (s.flattenFrame = some true → ∃ view, s.widget = some view)
      ∧ ((RenderPart.computeLogicalHeight host s).flattenFrame = some true →
          (s.isScrollable = true ∨ s.style.height.isFixed = false) →
          ∃ view, s.widget = some view ∧
            (fitsInt (view.contentsHeight + s.borderTop + s.borderBottom) = true →
              RenderIFrame.computeLogicalHeight host s =
                some { RenderPart.computeLogicalHeight host s with
                  height := max (host.partLogicalHeight s)
                    (view.contentsHeight + (s.borderTop + s.borderBottom)) }))
      ∧ ((RenderPart.computeLogicalWidth host s).flattenFrame = some true →
          (s.isScrollable = true ∨ s.style.width.isFixed = false) →
          ∃ view, s.widget = some view ∧
            (fitsInt (view.contentsWidth + s.borderLeft + s.borderRight) = true →
              RenderIFrame.computeLogicalWidth host s =
                some { RenderPart.computeLogicalWidth host s with
                  width := max (host.partLogicalWidth s)
                    (view.contentsWidth + (s.borderLeft + s.borderRight)) })) := by
  refine ⟨?_, ?_, ?_⟩
  · intro h
    obtain ⟨-, -, hen, -⟩ := flattenFrame_true_inv s h
    unfold RenderIFrame.embeddedBodyIsFrameset at hen
    cases hw : s.widget with
    | none => simp [hw] at hen
    | some view => exact ⟨view, rfl⟩
  · intro hflat hfree
    obtain ⟨view, hw, hres⟩ := computeLogicalHeight_of_true host s hflat
    refine ⟨view, hw, ?_⟩
    intro hfits
    rw [hres, if_pos hfree, intAdd_of_fits _ _ _ hfits, Int.add_assoc]
  · intro hflat hfree
    obtain ⟨view, hw, hres⟩ := computeLogicalWidth_of_true host s hflat
    refine ⟨view, hw, ?_⟩
    intro hfits
    rw [hres, if_pos hfree, intAdd_of_fits _ _ _ hfits, Int.add_assoc]

/-- Witness for claim C15 (amended) at `sampleBox`: the widget is present, the height
becomes max(150, 800 + 0) = 800 and the width max(300, 640 + 0) = 640. -/
theorem flattenFrame_true_widget_present_witness :
    sampleBox.flattenFrame = some true
      ∧ sampleBox.widget = some (embeddedView QualifiedName.framesetTag)
      ∧ (RenderIFrame.computeLogicalHeight sampleHost sampleBox).map RenderIFrame.height
          = some 800
      ∧ (RenderIFrame.computeLogicalWidth sampleHost sampleBox).map RenderIFrame.width
          = some 640 := by
  have h := flattenFrame_true_widget_present sampleHost sampleBox
  obtain ⟨view, hw⟩ := h.1 (by decide)
  obtain ⟨viewH, hwH, hH⟩ := h.2.1 (by decide) (Or.inl (by decide))
  obtain ⟨viewW, hwW, hW⟩ := h.2.2 (by decide) (Or.inl (by decide))
  have hvH : viewH = embeddedView QualifiedName.framesetTag := (Option.some.inj hwH).symm
  have hvW : viewW = embeddedView QualifiedName.framesetTag := (Option.some.inj hwW).symm
  subst hvH
  subst hvW
  refine ⟨by decide, by decide, ?_, ?_⟩
  · rw [hH (by decide)]
    decide
  · rw [hW (by decide)]
    decide

end WebCore
